import Mathlib

/-!
Verification of the Runge-Kutta core of the rehuel library (`src/irk.cpp`)
against its natural-language specification.

The embedding follows the C++ source.  Machine doubles are modelled as exact
extended nonnegative reals (`ℝ≥0∞`) in the step-size controller, where the
IEEE behaviour `x / 0 = +inf` for `x > 0` matters, and as exact reals (`ℝ`)
in the Butcher tableaux.  `arma::mat` / `arma::vec` become lists of rows /
lists of reals.  The enum of method identifiers and the two lookup tables
live in the header `irk.hpp`, which is not part of the sources; they are
modelled from the spec where indicated.
-/

open scoped ENNReal

namespace irk

/-- Modelled from the spec: the method identifiers declared by the enum in the
missing header `irk.hpp`.  The spec fixes only that the identifiers are
distinct, that `0` is not among them (`0` is the designated "no method"
sentinel, and "the identifier gap before valid entries"), and which twenty
named methods the catalogue contains (the cases of the switch in
`get_coefficients`).  Concrete values are chosen arbitrarily subject to that. -/
def EXPLICIT_EULER : Int := 10

def RUNGE_KUTTA_4 : Int := 11

def BOGACKI_SHAMPINE_32 : Int := 12

def CASH_KARP_54 : Int := 13

def DORMAND_PRINCE_54 : Int := 14

def FEHLBERG_54 : Int := 15

def IMPLICIT_EULER : Int := 16

def IMPLICIT_MIDPOINT : Int := 17

def LOBATTO_IIIA_21 : Int := 18

def LOBATTO_IIIC_21 : Int := 19

def RADAU_IA_32 : Int := 20

def RADAU_IIA_32 : Int := 21

def LOBATTO_IIIA_43 : Int := 22

def LOBATTO_IIIC_43 : Int := 23

def GAUSS_LEGENDRE_42 : Int := 24

def RADAU_IA_54 : Int := 25

def RADAU_IIA_54 : Int := 26

def GAUSS_LEGENDRE_63 : Int := 27

def LOBATTO_IIIA_65 : Int := 28

def LOBATTO_IIIC_65 : Int := 29

/-- Modelled from the spec: the process-wide table `irk::rk_method_to_string`
declared in the missing header `irk.hpp`, a `std::map` keyed by the method
identifier, providing "a closed bidirectional mapping between a stable string
identifier and the internal identifier" together with `rk_string_to_method`.
Modelled as an association list. -/
def rk_method_to_string : List (Int × String) :=
  [(EXPLICIT_EULER, "EXPLICIT_EULER"),
   (RUNGE_KUTTA_4, "RUNGE_KUTTA_4"),
   (BOGACKI_SHAMPINE_32, "BOGACKI_SHAMPINE_32"),
   (CASH_KARP_54, "CASH_KARP_54"),
   (DORMAND_PRINCE_54, "DORMAND_PRINCE_54"),
   (FEHLBERG_54, "FEHLBERG_54"),
   (IMPLICIT_EULER, "IMPLICIT_EULER"),
   (IMPLICIT_MIDPOINT, "IMPLICIT_MIDPOINT"),
   (LOBATTO_IIIA_21, "LOBATTO_IIIA_21"),
   (LOBATTO_IIIC_21, "LOBATTO_IIIC_21"),
   (RADAU_IA_32, "RADAU_IA_32"),
   (RADAU_IIA_32, "RADAU_IIA_32"),
   (LOBATTO_IIIA_43, "LOBATTO_IIIA_43"),
   (LOBATTO_IIIC_43, "LOBATTO_IIIC_43"),
   (GAUSS_LEGENDRE_42, "GAUSS_LEGENDRE_42"),
   (RADAU_IA_54, "RADAU_IA_54"),
   (RADAU_IIA_54, "RADAU_IIA_54"),
   (GAUSS_LEGENDRE_63, "GAUSS_LEGENDRE_63"),
   (LOBATTO_IIIA_65, "LOBATTO_IIIA_65"),
   (LOBATTO_IIIC_65, "LOBATTO_IIIC_65")]

/-- Modelled from the spec: the inverse table `irk::rk_string_to_method`
(missing header `irk.hpp`), keyed by the method name. -/
def rk_string_to_method : List (String × Int) :=
  rk_method_to_string.map fun p => (p.2, p.1)

/-- The access `irk::rk_string_to_method[name]` performed by
`irk::name_to_method` (`irk.cpp`): C++ `std::map::operator[]` semantics, i.e.
return the mapped value when the key is present, otherwise insert the key with
a value-initialized mapped value (`0` for `int`) and return it.  The result is
the returned value paired with the table state after the call. -/
def name_to_method_step (tbl : List (String × Int)) (s : String) :
    Int × List (String × Int) :=
  match tbl.lookup s with
  | some v => (v, tbl)
  | none => (0, tbl ++ [(s, 0)])

/-- The access `irk::rk_method_to_string[method]` performed by
`irk::method_to_name` (`irk.cpp`): C++ `std::map::operator[]` semantics with a
value-initialized `std::string` (the empty string) for an absent key. -/
def method_to_name_step (tbl : List (Int × String)) (m : Int) :
    String × List (Int × String) :=
  match tbl.lookup m with
  | some v => (v, tbl)
  | none => ("", tbl ++ [(m, "")])

/-- `irk::name_to_method` (`irk.cpp`): `return irk::rk_string_to_method[name];`. -/
def name_to_method (s : String) : Int :=
  (name_to_method_step rk_string_to_method s).1

/-- `irk::method_to_name` (`irk.cpp`):
`return irk::rk_method_to_string[method].c_str();`. -/
def method_to_name (m : Int) : String :=
  (method_to_name_step rk_method_to_string m).1

/-- `irk::solver_coeffs` (declared in the header, populated in `irk.cpp`).
`arma::mat` is a list of rows, `arma::vec` a list of reals; a
default-constructed armadillo object is empty.  The `order`/`order2` fields
are plain integers in C++; the catalogue only ever stores nonnegative values,
so they are modelled as `ℕ` (with `0` for the default-constructed value). -/
structure solver_coeffs where
  A : List (List ℝ)
  b : List ℝ
  b2 : List ℝ
  c : List ℝ
  FSAL : Bool
  order : ℕ
  order2 : ℕ
  name : String
  dt : ℝ

/-- `irk::verify_solver_coeffs` (`irk.cpp`): `b`, `c`, the rows and the
columns of `A` must all have the same size.  Armadillo matrices are
rectangular, so `n_cols` is read off the first row (an empty matrix has no
columns). -/
def verify_solver_coeffs (sc : solver_coeffs) : Bool :=
  decide (sc.b.length = sc.c.length) &&
    decide (sc.b.length = sc.A.length) &&
    decide (sc.b.length = (sc.A.headD []).length)

/-- `irk::get_coefficients` (`irk.cpp`): the Butcher tableau catalogue.  Each
branch transcribes one case of the switch; the default branch of the switch
assigns nothing, so the default-constructed (empty) fields remain.  `sc.name`
is assigned before the switch and `sc.dt = 0.05` after it, in every case. -/
noncomputable def get_coefficients (method : Int) : solver_coeffs :=
  let sqrt3 := Real.sqrt 3
  let sqrt5 := Real.sqrt 5
  let sqrt6 := Real.sqrt 6
  let sqrt15 := Real.sqrt 15
  let sc0 : solver_coeffs :=
    { A := [], b := [], b2 := [], c := [], FSAL := false,
      order := 0, order2 := 0, name := method_to_name method, dt := 0.05 }
  if method = EXPLICIT_EULER then
    { sc0 with A := [[0]], b := [1], c := [0], order := 1, order2 := 0 }
  else if method = RUNGE_KUTTA_4 then
    { sc0 with
      A := [[0, 0, 0, 0], [0.5, 0, 0, 0], [0, 0.5, 0, 0], [0, 0, 1, 0]],
      b := [1/6, 1/3, 1/3, 1/6], c := [0, 0.5, 0.5, 1],
      order := 4, order2 := 0 }
  else if method = BOGACKI_SHAMPINE_32 then
    { sc0 with
      A := [[0, 0, 0, 0], [0.5, 0, 0, 0], [0, 0.75, 0, 0],
            [2/9, 1/3, 4/9, 0]],
      b := [2/9, 1/3, 4/9, 0], b2 := [7/24, 0.25, 1/3, 1/8],
      c := [0, 0.5, 0.75, 1], FSAL := true, order := 3, order2 := 2 }
  else if method = CASH_KARP_54 then
    { sc0 with
      A := [[0, 0, 0, 0, 0, 0],
            [1/5, 0, 0, 0, 0, 0],
            [3/40, 9/40, 0, 0, 0, 0],
            [3/10, -9/10, 6/5, 0, 0, 0],
            [-11/54, 5/2, -70/27, 35/27, 0, 0],
            [1631/55296, 175/512, 575/13824, 44275/110592, 253/4096, 0]],
      b := [37/378, 0, 250/621, 125/594, 0, 512/1771],
      b2 := [2825/27648, 0, 18575/48384, 13525/55296, 277/14336, 1/4],
      c := [0, 0.2, 0.3, 0.6, 1, 7/8],
      order := 5, order2 := 4 }
  else if method = DORMAND_PRINCE_54 then
    { sc0 with
      A := [[0, 0, 0, 0, 0, 0, 0],
            [1/5, 0, 0, 0, 0, 0, 0],
            [3/40, 9/40, 0, 0, 0, 0, 0],
            [44/45, -56/15, 32/9, 0, 0, 0, 0],
            [19372/6561, -25360/2187, 64448/6561, -212/729, 0, 0, 0],
            [9017/3168, -355/33, 46732/5247, 49/176, -5103/18656, 0, 0],
            [35/384, 0, 500/1113, 125/192, -2187/6784, 11/84, 0]],
      c := [0, 0.2, 0.3, 0.8, 8/9, 1, 1],
      b := [35/384, 0, 500/1113, 125/192, -2187/6784, 11/84, 0],
      b2 := [5179/57600, 0, 7571/16695, 393/640, -92097/339200,
             187/2100, 1/40],
      order := 5, order2 := 4, FSAL := true }
  else if method = FEHLBERG_54 then
    { sc0 with
      A := [[0, 1/4, 3/32, 1932/2197, 439/126, -8/27],
            [0, 0, 9/32, -7200/2197, -8, 2],
            [0, 0, 0, 7296/2197, 3680/513, -3544/2565],
            [0, 0, 0, 0, -845/4104, 1859/4104],
            [0, 0, 0, 0, 0, -11/40],
            [0, 0, 0, 0, 0, 0]],
      b := [16/135, 0, 6656/12825, 28561/56430, -9/50, 2/55],
      b2 := [25/216, 0, 1408/2565, 2197/4104, -1/5, 0],
      order := 5, order2 := 4 }
  else if method = IMPLICIT_EULER then
    { sc0 with A := [[1]], b := [1], c := [1], order := 1, order2 := 0 }
  else if method = IMPLICIT_MIDPOINT then
    { sc0 with A := [[0.5]], b := [1], c := [0.5], order := 2, order2 := 0 }
  else if method = LOBATTO_IIIA_21 then
    { sc0 with
      A := [[0, 0], [0.5, 0.5]], b := [0.5, 0.5], c := [0, 1],
      b2 := [0.25, 0.75], order := 2, order2 := 1 }
  else if method = LOBATTO_IIIC_21 then
    { sc0 with
      A := [[0.5, -0.5], [0.5, 0.5]], b := [0.5, 0.5], b2 := [1/3, 2/3],
      c := [0, 1], order := 2, order2 := 1 }
  else if method = RADAU_IA_32 then
    { sc0 with
      A := [[1/4, -1/4], [1/4, 5/12]], c := [0, 2/3], b := [1/4, 3/4],
      order := 3, order2 := 0 }
  else if method = RADAU_IIA_32 then
    { sc0 with
      A := [[5/12, -1/12], [3/4, 1/4]], c := [1/3, 1], b := [3/4, 1/4],
      order := 3, order2 := 0 }
  else if method = LOBATTO_IIIA_43 then
    { sc0 with
      A := [[0, 0, 0], [5/24, 1/3, -1/24], [1/6, 2/3, 1/6]],
      c := [0, 0.5, 1], b := [1/6, 2/3, 1/6], b2 := [-0.5, 2, -0.5],
      order := 4, order2 := 3, FSAL := true }
  else if method = LOBATTO_IIIC_43 then
    { sc0 with
      A := [[1/6, -1/3, 1/6], [1/6, 5/12, -1/12], [1/6, 2/3, 1/6]],
      b := [1/6, 2/3, 1/6], b2 := [-0.5, 2, -0.5], c := [0, 0.5, 1],
      order := 4, order2 := 3 }
  else if method = GAUSS_LEGENDRE_42 then
    { sc0 with
      A := [[0.25, 0.25 - sqrt3/6], [0.25 + sqrt3/6, 0.25]],
      c := [0.5 - sqrt3/6, 0.5 + sqrt3/6], b := [0.5, 0.5],
      b2 := [0.5 + 0.5*sqrt3, 0.5 - 0.5*sqrt3],
      order := 4, order2 := 2 }
  else if method = RADAU_IA_54 then
    { sc0 with
      A := [[1/9, (-1 - sqrt6)/18, (-1 + sqrt6)/18],
            [1/9, (88 + 7*sqrt6)/360, (88 - 43*sqrt6)/360],
            [1/9, (88 + 43*sqrt6)/360, (88 - 7*sqrt6)/360]],
      c := [0, (6 - sqrt6)/10, (6 + sqrt6)/10],
      b := [1/9, (16 + sqrt6)/36, (16 - sqrt6)/36],
      order := 5, order2 := 0 }
  else if method = RADAU_IIA_54 then
    { sc0 with
      A := [[(88 - 7*sqrt6)/360, (296 - 169*sqrt6)/1800, (-2 + 3*sqrt6)/225],
            [(296 + 169*sqrt6)/1800, (88 + 7*sqrt6)/360, (-2 - 3*sqrt6)/225],
            [(16 - sqrt6)/36, (16 + sqrt6)/36, 1/9]],
      c := [(4 - sqrt6)/10, (4 + sqrt6)/10, 1],
      b := [(16 - sqrt6)/36, (16 + sqrt6)/36, 1/9],
      order := 5, order2 := 0 }
  else if method = GAUSS_LEGENDRE_63 then
    { sc0 with
      A := [[5/36, 2/9 - sqrt15/15, 5/36 - sqrt15/30],
            [5/36 + sqrt15/24, 2/9, 5/36 - sqrt15/24],
            [5/36 + sqrt15/30, 2/9 + sqrt15/15, 5/36]],
      b := [5/18, 4/9, 5/18],
      c := [0.5 - sqrt15/10, 0.5, 0.5 + sqrt15/10],
      order := 6, order2 := 0 }
  else if method = LOBATTO_IIIA_65 then
    let a1 : ℝ := 11/120
    let a2 : ℝ := 25/120
    let a3 : ℝ := sqrt5/120
    let a4 : ℝ := 1/120
    { sc0 with
      A := [[0, 0, 0, 0],
            [a1 + a3, a2 - a3, a2 - 13*a3, -a4 + a3],
            [a1 - a3, a2 + 13*a3, a2 + a3, -a4 - a3],
            [1/12, 5/12, 5/12, 1/12]],
      b := [1/12, 5/12, 5/12, 1/12],
      c := [0, 0.5 - sqrt5/10, 0.5 + sqrt5/10, 1],
      order := 6, order2 := 0 }
  else if method = LOBATTO_IIIC_65 then
    let a1 : ℝ := 1/12
    let a2 : ℝ := sqrt5/12
    let a3 : ℝ := 0.25
    let a4 : ℝ := 1/6
    let a5 : ℝ := sqrt5/60
    { sc0 with
      A := [[a1, -a2, a2, -a1],
            [a1, a3, a4 - 7*a5, a5],
            [a1, a4 + 7*a5, a3, -a5],
            [a1, 5*a1, 5*a1, a1]],
      b := [a1, 5*a1, 5*a1, a1],
      c := [0, 0.5 - sqrt5/10, 0.5 + sqrt5/10, 1],
      order := 6, order2 := 0 }
  else sc0

/-- The row-sum consistency invariant of a tableau: the matrix has one row
per `c` entry and every row of `A` sums to the corresponding entry of `c` up
to the tolerance `1e-5` used by the check at the end of `get_coefficients`. -/
def row_consistent (sc : solver_coeffs) : Prop :=
  sc.A.length = sc.c.length ∧
    List.Forall₂ (fun row ci => |List.sum row - ci| ≤ 1e-5) sc.A sc.c

/-- The case labels of the switch in `get_coefficients` (equivalently, the
catalogued method identifiers). -/
def catalogued_methods : List Int :=
  [EXPLICIT_EULER, RUNGE_KUTTA_4, BOGACKI_SHAMPINE_32, CASH_KARP_54,
   DORMAND_PRINCE_54, FEHLBERG_54, IMPLICIT_EULER, IMPLICIT_MIDPOINT,
   LOBATTO_IIIA_21, LOBATTO_IIIC_21, RADAU_IA_32, RADAU_IIA_32,
   LOBATTO_IIIA_43, LOBATTO_IIIC_43, GAUSS_LEGENDRE_42, RADAU_IA_54,
   RADAU_IIA_54, GAUSS_LEGENDRE_63, LOBATTO_IIIA_65, LOBATTO_IIIC_65]

/-- The default case of the switch in `get_coefficients` logs
`"Method ... not supported!"` to `std::cerr`; this flag records whether that
warning is emitted for a given identifier. -/
def method_not_supported_warning (m : Int) : Bool :=
  decide (m ∉ catalogued_methods)

/-- A difference of equal reals is within the catalogue check's tolerance. -/
lemma abs_tol_of_eq {a b : ℝ} (h : a = b) : |a - b| ≤ 1e-5 := by
  rw [h, sub_self, abs_zero]
  norm_num

set_option maxHeartbeats 2000000 in
/-- Supporting fact: every catalogued tableau other than the botched
`FEHLBERG_54` one satisfies the row-sum consistency invariant (in fact each
row of `A` sums exactly to the matching `c` entry). -/
lemma row_consistent_catalogue (m : Int) (hm : m ∈ catalogued_methods)
    (hf : m ≠ FEHLBERG_54) : row_consistent (get_coefficients m) := by
  fin_cases hm
  all_goals try (exact absurd rfl hf)
  all_goals
    (refine ⟨by simp [get_coefficients, EXPLICIT_EULER, RUNGE_KUTTA_4,
      BOGACKI_SHAMPINE_32, CASH_KARP_54, DORMAND_PRINCE_54, FEHLBERG_54,
      IMPLICIT_EULER, IMPLICIT_MIDPOINT, LOBATTO_IIIA_21, LOBATTO_IIIC_21,
      RADAU_IA_32, RADAU_IIA_32, LOBATTO_IIIA_43, LOBATTO_IIIC_43,
      GAUSS_LEGENDRE_42, RADAU_IA_54, RADAU_IIA_54, GAUSS_LEGENDRE_63,
      LOBATTO_IIIA_65, LOBATTO_IIIC_65], ?_⟩
     simp only [get_coefficients, EXPLICIT_EULER, RUNGE_KUTTA_4,
       BOGACKI_SHAMPINE_32, CASH_KARP_54, DORMAND_PRINCE_54, FEHLBERG_54,
       IMPLICIT_EULER, IMPLICIT_MIDPOINT, LOBATTO_IIIA_21, LOBATTO_IIIC_21,
       RADAU_IA_32, RADAU_IIA_32, LOBATTO_IIIA_43, LOBATTO_IIIC_43,
       GAUSS_LEGENDRE_42, RADAU_IA_54, RADAU_IIA_54, GAUSS_LEGENDRE_63,
       LOBATTO_IIIA_65, LOBATTO_IIIC_65, Int.reduceEq, reduceIte,
       List.forall₂_cons, List.forall₂_nil_right_iff, List.sum_cons,
       List.sum_nil, and_true]
     repeat' apply And.intro
     all_goals first
     | rfl
     | (apply abs_tol_of_eq; norm_num; done)
     | (apply abs_tol_of_eq; ring_nf))

/-- Supporting fact: every catalogued tableau other than the `FEHLBERG_54`
one passes the `verify_solver_coeffs` size check. -/
lemma verify_solver_coeffs_catalogue (m : Int) (hm : m ∈ catalogued_methods)
    (hf : m ≠ FEHLBERG_54) :
    verify_solver_coeffs (get_coefficients m) = true := by
  fin_cases hm
  all_goals first
  | exact absurd rfl hf
  | simp [verify_solver_coeffs, get_coefficients, EXPLICIT_EULER,
      RUNGE_KUTTA_4, BOGACKI_SHAMPINE_32, CASH_KARP_54, DORMAND_PRINCE_54,
      FEHLBERG_54, IMPLICIT_EULER, IMPLICIT_MIDPOINT, LOBATTO_IIIA_21,
      LOBATTO_IIIC_21, RADAU_IA_32, RADAU_IIA_32, LOBATTO_IIIA_43,
      LOBATTO_IIIC_43, GAUSS_LEGENDRE_42, RADAU_IA_54, RADAU_IIA_54,
      GAUSS_LEGENDRE_63, LOBATTO_IIIA_65, LOBATTO_IIIC_65]

/-- C10: the `FEHLBERG_54` case of `get_coefficients` never assigns `c` (and
enters `A` with transposed indices), so the returned tableau has six `b`
entries but an empty `c` and fails the repository's own size check
`verify_solver_coeffs`. -/
theorem verify_solver_coeffs_fails_fehlberg :
    verify_solver_coeffs (get_coefficients FEHLBERG_54) = false := by
  simp [verify_solver_coeffs, get_coefficients, EXPLICIT_EULER, RUNGE_KUTTA_4,
    BOGACKI_SHAMPINE_32, CASH_KARP_54, DORMAND_PRINCE_54, FEHLBERG_54]

/-- C2: the row-sum consistency invariant fails on the catalogue: the
`FEHLBERG_54` tableau has a 6-row `A` but an empty `c` (the case never
assigns `c`), so its rows cannot match `c` entry-by-entry. -/
theorem row_consistency_fails_fehlberg :
    ¬ row_consistent (get_coefficients FEHLBERG_54) := by
  intro h
  have hlen := h.1
  simp [row_consistent, get_coefficients, EXPLICIT_EULER, RUNGE_KUTTA_4,
    BOGACKI_SHAMPINE_32, CASH_KARP_54, DORMAND_PRINCE_54, FEHLBERG_54] at hlen

/-- C6: an identifier matching no case of the method switch yields the
sentinel tableau — no `A`, `b`, `b2` or `c` entries, `FSAL = false`, only
`dt = 0.05` assigned after the switch — and the "not supported" warning is
logged. -/
theorem get_coefficients_unknown_sentinel (m : Int)
    (h : m ∉ catalogued_methods) :
    (get_coefficients m).A = [] ∧ (get_coefficients m).b = [] ∧
      (get_coefficients m).c = [] ∧ (get_coefficients m).b2 = [] ∧
      (get_coefficients m).FSAL = false ∧ (get_coefficients m).dt = 0.05 ∧
      method_not_supported_warning m = true := by
  have hw : method_not_supported_warning m = true := by
    simp only [method_not_supported_warning, decide_eq_true_eq]
    exact h
  simp only [catalogued_methods, List.mem_cons, List.not_mem_nil, or_false,
    not_or] at h
  obtain ⟨h1, h2, h3, h4, h5, h6, h7, h8, h9, h10, h11, h12, h13, h14, h15,
    h16, h17, h18, h19, h20⟩ := h
  refine ⟨?_, ?_, ?_, ?_, ?_, ?_, hw⟩ <;>
    simp [get_coefficients, h1, h2, h3, h4, h5, h6, h7, h8, h9, h10, h11,
      h12, h13, h14, h15, h16, h17, h18, h19, h20]

/-- Witness for C6 at the concrete identifier `0` (the "no method"
sentinel, which matches no case of the switch). -/
theorem get_coefficients_unknown_sentinel_app :
    (get_coefficients 0).A = [] ∧ (get_coefficients 0).b = [] ∧
      (get_coefficients 0).c = [] ∧ (get_coefficients 0).b2 = [] ∧
      (get_coefficients 0).FSAL = false ∧ (get_coefficients 0).dt = 0.05 ∧
      method_not_supported_warning 0 = true :=
  get_coefficients_unknown_sentinel 0 (by decide)

/-- `irk::get_better_time_step` (`irk.cpp`).  Doubles are modelled as exact
extended nonnegative reals, which matches IEEE arithmetic on the nonnegative
inputs the controller receives: `x / 0 = ∞` for `x > 0`, `x * ∞ = ∞` for
`x > 0`, and `fmin(∞, y) = y`.  The exponents are the integer-valued doubles
the code computes: `alpha = sc.order + sc.order2` and
`beta = min(sc.order, sc.order2)` — the raw order sums, not the reciprocals
of the cited formula 2.43c.  The unused `opts` parameter is dropped;
`newton_iters` is kept (and likewise unused). -/
noncomputable def get_better_time_step (dt_old err old_err tol : ℝ≥0∞)
    (newton_iters : ℕ) (sc : solver_coeffs) (max_dt : ℝ≥0∞) : ℝ≥0∞ :=
  let alpha : ℕ := sc.order + sc.order2
  let min_order : ℕ := min sc.order sc.order2
  let beta : ℕ := min_order
  let frac1 := tol / err
  let frac2 := old_err / tol
  let dt_new := dt_old * frac1 ^ alpha * frac2 ^ beta
  min dt_new max_dt

/-- Modelled from the spec: the step-size controller exactly as §4.2 words it,
`dt_new = dt_old · (tol/err)^α · (err_prev/tol)^β` with
`α = 1/(order+order2)` and `β = min(order,order2)/(order+order2)`, clamped to
`max_dt` — written only for the refinement comparison against
`get_better_time_step`. -/
noncomputable def next_step_spec (dt_old err old_err tol : ℝ≥0∞)
    (sc : solver_coeffs) (max_dt : ℝ≥0∞) : ℝ≥0∞ :=
  let alpha : ℝ := 1 / (sc.order + sc.order2 : ℝ)
  let beta : ℝ := (min sc.order sc.order2 : ℝ) / (sc.order + sc.order2 : ℝ)
  min (dt_old * (tol / err) ^ alpha * (old_err / tol) ^ beta) max_dt

/-- C5: whatever the inputs, the returned step size is clamped to `max_dt`. -/
theorem get_better_time_step_le_max_dt (dt_old err old_err tol : ℝ≥0∞)
    (newton_iters : ℕ) (sc : solver_coeffs) (max_dt : ℝ≥0∞) :
    get_better_time_step dt_old err old_err tol newton_iters sc max_dt ≤
      max_dt :=
  min_le_right _ _

/-- C1: the controller computes with the raw exponents
`alpha = order + order2 = 9` and `beta = min(order, order2) = 4` instead of
the reciprocals `1/9` and `4/9` demanded by the spec (and by the
Hairer-Wanner formula the code itself cites): on the Cash-Karp tableau with
`dt_old = tol = old_err = 1`, `err = 2`, `max_dt = 1000` the code returns
`(1/2)^9 = 1/512`, strictly below the spec value `(1/2)^(1/9) ≈ 0.926`. -/
theorem get_better_time_step_uses_raw_order_sums :
    get_better_time_step 1 2 1 1 0 (get_coefficients CASH_KARP_54) 1000 =
      (512 : ℝ≥0∞)⁻¹ ∧
    get_better_time_step 1 2 1 1 0 (get_coefficients CASH_KARP_54) 1000 <
      next_step_spec 1 2 1 1 (get_coefficients CASH_KARP_54) 1000 := by
  have hord : (get_coefficients CASH_KARP_54).order = 5 := by
    simp [get_coefficients, EXPLICIT_EULER, RUNGE_KUTTA_4,
      BOGACKI_SHAMPINE_32, CASH_KARP_54]
  have hord2 : (get_coefficients CASH_KARP_54).order2 = 4 := by
    simp [get_coefficients, EXPLICIT_EULER, RUNGE_KUTTA_4,
      BOGACKI_SHAMPINE_32, CASH_KARP_54]
  have hcode : get_better_time_step 1 2 1 1 0
      (get_coefficients CASH_KARP_54) 1000 = (512 : ℝ≥0∞)⁻¹ := by
    rw [get_better_time_step, hord, hord2]
    norm_num
    rw [← ENNReal.inv_pow]
    norm_num
    exact le_trans (ENNReal.inv_le_one.2 (by norm_num)) (by norm_num)
  have hhalf : (512 : ℝ≥0∞)⁻¹ < 2⁻¹ ^ ((1 : ℝ) / 9) := by
    calc (512 : ℝ≥0∞)⁻¹ < 2⁻¹ := by
          rw [ENNReal.inv_lt_inv]; norm_num
      _ = (2 : ℝ≥0∞)⁻¹ ^ ((1 : ℝ)) := by rw [ENNReal.rpow_one]
      _ ≤ 2⁻¹ ^ ((1 : ℝ) / 9) :=
          ENNReal.rpow_le_rpow_of_exponent_ge
            (ENNReal.inv_le_one.2 one_le_two) (by norm_num)
  refine ⟨hcode, ?_⟩
  rw [hcode, next_step_spec, hord, hord2]
  norm_num [ENNReal.one_rpow, lt_min_iff]
  refine ⟨hhalf, ?_⟩
  exact lt_of_le_of_lt (ENNReal.inv_le_one.2 (by norm_num)) (by norm_num)

/-- C3: with `err == 0` the controller performs no division fault: in IEEE
arithmetic `tol/0 = +inf` for `tol > 0`, the trial step becomes infinite, and
the clamp returns exactly `max_dt` — a well-defined value bounded above by
`max_dt` and no smaller than the old step whenever the old step respects the
bound. -/
theorem get_better_time_step_zero_err (dt_old old_err tol max_dt : ℝ≥0∞)
    (newton_iters : ℕ) (sc : solver_coeffs) (hdt : 0 < dt_old)
    (htol : 0 < tol) (htolt : tol ≠ ⊤) (hold : 0 < old_err)
    (hord : 1 ≤ sc.order + sc.order2) :
    get_better_time_step dt_old 0 old_err tol newton_iters sc max_dt =
        max_dt ∧
      get_better_time_step dt_old 0 old_err tol newton_iters sc max_dt ≤
        max_dt ∧
      (dt_old ≤ max_dt →
        dt_old ≤
          get_better_time_step dt_old 0 old_err tol newton_iters sc max_dt) := by
  have h1 : tol / (0 : ℝ≥0∞) = ⊤ := ENNReal.div_zero htol.ne'
  have h2 : (⊤ : ℝ≥0∞) ^ (sc.order + sc.order2) = ⊤ :=
    ENNReal.top_pow (by omega)
  have h3 : old_err / tol ≠ 0 := by
    rw [ne_eq, ENNReal.div_eq_zero_iff]
    push_neg
    exact ⟨hold.ne', htolt⟩
  have h4 : (old_err / tol) ^ (min sc.order sc.order2) ≠ 0 :=
    pow_ne_zero _ h3
  have hmain : get_better_time_step dt_old 0 old_err tol newton_iters sc
      max_dt = max_dt := by
    rw [get_better_time_step]
    simp only [h1, h2]
    rw [ENNReal.mul_top hdt.ne', ENNReal.top_mul h4]
    exact min_eq_right le_top
  exact ⟨hmain, by rw [hmain], fun h => by rw [hmain]; exact h⟩

/-- Witness for C3 at `dt_old = old_err = tol = 1`, `max_dt = 2`, on the
implicit Euler tableau. -/
theorem get_better_time_step_zero_err_app :
    get_better_time_step 1 0 1 1 0 (get_coefficients IMPLICIT_EULER) 2 =
        (2 : ℝ≥0∞) ∧
      get_better_time_step 1 0 1 1 0 (get_coefficients IMPLICIT_EULER) 2 ≤
        (2 : ℝ≥0∞) ∧
      ((1 : ℝ≥0∞) ≤ 2 →
        (1 : ℝ≥0∞) ≤
          get_better_time_step 1 0 1 1 0 (get_coefficients IMPLICIT_EULER) 2) :=
  get_better_time_step_zero_err 1 1 1 2 0 (get_coefficients IMPLICIT_EULER)
    zero_lt_one zero_lt_one ENNReal.one_ne_top zero_lt_one
    (by simp [get_coefficients, EXPLICIT_EULER, RUNGE_KUTTA_4,
      BOGACKI_SHAMPINE_32, CASH_KARP_54, DORMAND_PRINCE_54, FEHLBERG_54,
      IMPLICIT_EULER])

/-- C4, counterexample: a rejected step (`err = 2 > 1 = tol`) for which the
controller does NOT return a step strictly smaller than `dt_old`: with the
previous error `old_err = 8` well above `tol`, the history factor
`(old_err/tol)^beta = 8` cancels the shrink factor `(tol/err)^alpha = 1/8`
(Lobatto IIIA(2,1) tableau, `alpha = 3`, `beta = 1`), and the returned step
equals `dt_old = 1`. -/
theorem get_better_time_step_reject_counterexample :
    ¬ (get_better_time_step 1 2 8 1 0 (get_coefficients LOBATTO_IIIA_21) 2 <
        1) := by
  have hord : (get_coefficients LOBATTO_IIIA_21).order = 2 := by
    simp [get_coefficients, EXPLICIT_EULER, RUNGE_KUTTA_4,
      BOGACKI_SHAMPINE_32, CASH_KARP_54, DORMAND_PRINCE_54, FEHLBERG_54,
      IMPLICIT_EULER, IMPLICIT_MIDPOINT, LOBATTO_IIIA_21]
  have hord2 : (get_coefficients LOBATTO_IIIA_21).order2 = 1 := by
    simp [get_coefficients, EXPLICIT_EULER, RUNGE_KUTTA_4,
      BOGACKI_SHAMPINE_32, CASH_KARP_54, DORMAND_PRINCE_54, FEHLBERG_54,
      IMPLICIT_EULER, IMPLICIT_MIDPOINT, LOBATTO_IIIA_21]
  have h : get_better_time_step 1 2 8 1 0 (get_coefficients LOBATTO_IIIA_21)
      2 = 1 := by
    rw [get_better_time_step, hord, hord2]
    norm_num
    rw [← ENNReal.inv_pow]
    norm_num
    rw [ENNReal.inv_mul_cancel (by norm_num) (by norm_num)]
    exact min_eq_left one_le_two
  rw [h]
  exact lt_irrefl 1

/-- C4 (amended): on a rejected step (`err > tol`, with `tol > 0`, a finite
positive `dt_old`, a positive previous error that was itself accepted
(`old_err ≤ tol`), and a method of positive combined order) the controller
returns a step size strictly smaller than `dt_old`. -/
theorem get_better_time_step_shrinks_on_reject
    (dt_old err old_err tol max_dt : ℝ≥0∞) (newton_iters : ℕ)
    (sc : solver_coeffs) (hrej : tol < err) (htol : 0 < tol)
    (hdt0 : 0 < dt_old) (hdtt : dt_old ≠ ⊤) (hold0 : 0 < old_err)
    (holdle : old_err ≤ tol) (hord : 1 ≤ sc.order + sc.order2) :
    get_better_time_step dt_old err old_err tol newton_iters sc max_dt <
      dt_old := by
  have htolt : tol ≠ ⊤ := hrej.ne_top
  have hf1 : tol / err < 1 := by
    rw [ENNReal.div_lt_iff (Or.inl (htol.trans hrej).ne') (Or.inr htolt),
      one_mul]
    exact hrej
  have hf1a : (tol / err) ^ (sc.order + sc.order2) ≤ tol / err := by
    calc (tol / err) ^ (sc.order + sc.order2) ≤ (tol / err) ^ 1 :=
        pow_le_pow_right_of_le_one' hf1.le hord
      _ = tol / err := pow_one _
  have hf2 : old_err / tol ≤ 1 := by
    calc old_err / tol ≤ tol / tol := ENNReal.div_le_div_right holdle tol
      _ = 1 := ENNReal.div_self htol.ne' htolt
  have hf2b : (old_err / tol) ^ (min sc.order sc.order2) ≤ 1 :=
    pow_le_one' hf2 _
  have hprod : (tol / err) ^ (sc.order + sc.order2) *
      (old_err / tol) ^ (min sc.order sc.order2) < 1 := by
    calc (tol / err) ^ (sc.order + sc.order2) *
          (old_err / tol) ^ (min sc.order sc.order2) ≤ (tol / err) * 1 :=
        mul_le_mul' hf1a hf2b
      _ = tol / err := mul_one _
      _ < 1 := hf1
  have hdtnew : dt_old * (tol / err) ^ (sc.order + sc.order2) *
      (old_err / tol) ^ (min sc.order sc.order2) < dt_old := by
    rw [mul_assoc]
    calc dt_old * ((tol / err) ^ (sc.order + sc.order2) *
          (old_err / tol) ^ (min sc.order sc.order2)) < dt_old * 1 :=
        (ENNReal.mul_lt_mul_left hdt0.ne' hdtt).2 hprod
      _ = dt_old := mul_one _
  rw [get_better_time_step]
  exact lt_of_le_of_lt (min_le_left _ _) hdtnew

/-- Witness for C4's amended theorem: a rejected step with `err = 2 > 1 =
tol` and an accepted previous error `old_err = 1 ≤ tol` on the Lobatto
IIIA(2,1) tableau shrinks the step below `dt_old = 1`. -/
theorem get_better_time_step_shrinks_on_reject_app :
    get_better_time_step 1 2 1 1 0 (get_coefficients LOBATTO_IIIA_21) 2 <
      1 :=
  get_better_time_step_shrinks_on_reject 1 2 1 1 2 0
    (get_coefficients LOBATTO_IIIA_21) ENNReal.one_lt_two zero_lt_one
    zero_lt_one
    ENNReal.one_ne_top zero_lt_one le_rfl
    (by simp [get_coefficients, EXPLICIT_EULER, RUNGE_KUTTA_4,
      BOGACKI_SHAMPINE_32, CASH_KARP_54, DORMAND_PRINCE_54, FEHLBERG_54,
      IMPLICIT_EULER, IMPLICIT_MIDPOINT, LOBATTO_IIIA_21])

/-- C7: a string that is not a catalogued method name is mapped to the
sentinel `0`, the sentinel is distinct from every catalogued identifier, and
in particular from the explicit Euler identifier. -/
theorem name_to_method_unknown_gives_sentinel (s : String)
    (h : rk_string_to_method.lookup s = none) :
    name_to_method s = 0 ∧
      (∀ p ∈ rk_string_to_method, p.2 ≠ 0) ∧ EXPLICIT_EULER ≠ 0 := by
  refine ⟨?_, by decide, by decide⟩
  simp [name_to_method, name_to_method_step, h]

/-- Witness for C7 at the concrete name `RADAU_IIA_53` (the default method
name of the brusselator example, which is absent from the catalogue). -/
theorem name_to_method_unknown_gives_sentinel_app :
    name_to_method "RADAU_IIA_53" = 0 ∧
      (∀ p ∈ rk_string_to_method, p.2 ≠ 0) ∧ EXPLICIT_EULER ≠ 0 :=
  name_to_method_unknown_gives_sentinel "RADAU_IIA_53" (by decide)

/-- C8: on the catalogue the name/identifier mapping is a closed bijection:
`name_to_method` inverts `method_to_name` on every catalogued identifier and
`method_to_name` inverts `name_to_method` on every catalogued name. -/
theorem name_method_roundtrip :
    (∀ m ∈ rk_method_to_string.map Prod.fst,
        name_to_method (method_to_name m) = m) ∧
    (∀ s ∈ rk_method_to_string.map Prod.snd,
        method_to_name (name_to_method s) = s) := by
  decide

/-- Witness for C8 at the concrete identifier `EXPLICIT_EULER` and the
concrete name `RUNGE_KUTTA_4`. -/
theorem name_method_roundtrip_app :
    name_to_method (method_to_name EXPLICIT_EULER) = EXPLICIT_EULER ∧
      method_to_name (name_to_method "RUNGE_KUTTA_4") = "RUNGE_KUTTA_4" :=
  ⟨name_method_roundtrip.1 EXPLICIT_EULER (by decide),
   name_method_roundtrip.2 "RUNGE_KUTTA_4" (by decide)⟩

/-- C9, counterexample: calling `name_to_method` with a string that is not a
catalogued name does NOT leave `rk_string_to_method` unchanged —
`std::map::operator[]` inserts the key with value `0` into the table. -/
theorem name_to_method_mutates_table :
    (name_to_method_step rk_string_to_method "RADAU_IIA_53").2 ≠
      rk_string_to_method := by
  decide

/-- C9 (amended): calls of `name_to_method` with a catalogued name and of
`method_to_name` with a catalogued identifier leave the lookup tables
unchanged; only an unknown key inserts a fresh default-valued entry. -/
theorem lookup_tables_unchanged_on_catalogue :
    (∀ s, (rk_string_to_method.lookup s).isSome →
        (name_to_method_step rk_string_to_method s).2 = rk_string_to_method) ∧
    (∀ m, (rk_method_to_string.lookup m).isSome →
        (method_to_name_step rk_method_to_string m).2 = rk_method_to_string) := by
  constructor
  · intro s h
    rcases ho : rk_string_to_method.lookup s with _ | v
    · rw [ho] at h; simp at h
    · simp [name_to_method_step, ho]
  · intro m h
    rcases ho : rk_method_to_string.lookup m with _ | v
    · rw [ho] at h; simp at h
    · simp [method_to_name_step, ho]

/-- Witness for C9's amended theorem at the catalogued name
`IMPLICIT_EULER` and the catalogued identifier `IMPLICIT_EULER`. -/
theorem lookup_tables_unchanged_on_catalogue_app :
    (name_to_method_step rk_string_to_method "IMPLICIT_EULER").2 =
        rk_string_to_method ∧
      (method_to_name_step rk_method_to_string IMPLICIT_EULER).2 =
        rk_method_to_string :=
  ⟨lookup_tables_unchanged_on_catalogue.1 "IMPLICIT_EULER" (by decide),
   lookup_tables_unchanged_on_catalogue.2 IMPLICIT_EULER (by decide)⟩

end irk
